import Mathlib

/- Shallow embedding of src/src/commands/git.rs (the devx git subcommands).
External effects are made explicit: the spawn outcome of each attempt to run
the git binary is read from an environment indexed by the attempt number,
interactive prompt results are parameters, and every run returns, alongside
its CliResult value, the ordered list of attempted git invocations and the
lines printed to the terminal. -/

deriving instance DecidableEq for Except

/-- Error type of the CLI as used by this module: a single constructor
carrying a formatted message (CliError::Command). -/
inductive CliError where
  | Command (msg : String)
deriving DecidableEq

/-- Result of one external git process, mirroring std::process::Output: the
exit status (modelled as its success bit) and the captured stdout/stderr
content (modelled as text, matching the from_utf8_lossy reads in the code). -/
structure Output where
  success : Bool
  stdout : String
  stderr : String
deriving DecidableEq

/-- Outcome of one attempt to spawn the git binary: either the child process
runs, with a given exit success bit and stream contents, or the spawn itself
fails with an io error message (binary missing, permission denied, ...). -/
inductive SpawnResult where
  | launched (success : Bool) (stdout stderr : String)
  | noLaunch (err : String)
deriving DecidableEq

/-- Whether the spawn attempt launched a child process at all. -/
def SpawnResult.launches : SpawnResult → Bool
  | .launched _ _ _ => true
  | .noLaunch _ => false

/-- Exit success bit of the child (false when nothing launched). -/
def SpawnResult.succ : SpawnResult → Bool
  | .launched b _ _ => b
  | .noLaunch _ => false

/-- Stdout content of the child (empty when nothing launched). -/
def SpawnResult.out : SpawnResult → String
  | .launched _ o _ => o
  | .noLaunch _ => ""

/-- Stderr content of the child (empty when nothing launched). -/
def SpawnResult.errOut : SpawnResult → String
  | .launched _ _ e => e
  | .noLaunch _ => ""

/-- An environment fixes, for the i-th spawn attempt of a workflow run, its
outcome. It represents the operating system plus the git binary's behaviour. -/
def GitEnv : Type := Nat → SpawnResult

/-- The environment never fails to launch git (git stays installed and
spawnable for the whole run); exit statuses and outputs are unconstrained. -/
def all_launch (env : GitEnv) : Prop := ∀ i, (env i).launches = true

/-- One attempted git invocation: its argument vector and whether output was
captured (true) or streamed to the terminal (false). -/
structure GitCall where
  args : List String
  captured : Bool
deriving DecidableEq

/-- State threaded through a workflow run: the next spawn-attempt index, the
ordered list of attempted git invocations, and the lines printed so far. -/
structure RunState where
  idx : Nat
  calls : List GitCall
  prints : List String
deriving DecidableEq

/-- The state at the start of a workflow run. -/
def RunState.init : RunState := ⟨0, [], []⟩

/-- Record one println! line. -/
def rsPrint (s : RunState) (m : String) : RunState :=
  ⟨s.idx, s.calls, s.prints ++ [m]⟩

/-- Terminal styling from the colored crate (.bold()). The escape-code
decoration depends only on terminal detection and never on the control flow,
so styling is modelled as the identity on the text content. -/
def bold (s : String) : String := s

/-- Terminal styling from the colored crate (.dimmed()), modelled as the
identity on the text content, as for bold. -/
def dimmed (s : String) : String := s

/-- Embedding of git_exec (git.rs lines 36-58): run git with the given
arguments. The spawn outcome is read from the environment at the current
attempt index; a spawn failure maps to CliError::Command built from the
step's error message, while a child that runs yields Ok carrying its exit
status, with the streams captured when capture_output is true and left empty
(inherited by the terminal) when it is false. -/
def git_exec (env : GitEnv) (args : List String) (error_msg : String)
    (capture_output : Bool) (s : RunState) : Except CliError Output × RunState :=
  let s1 : RunState := ⟨s.idx + 1, s.calls ++ [⟨args, capture_output⟩], s.prints⟩
  match env s.idx with
  | .noLaunch e => (.error (.Command (error_msg ++ ": " ++ e)), s1)
  | .launched ok out err =>
      if capture_output then (.ok ⟨ok, out, err⟩, s1)
      else (.ok ⟨ok, "", ""⟩, s1)

/-- Split a character sequence at newline characters; always returns at least
one (possibly empty) segment, one more segment per newline. -/
def splitNl : List Char → List (List Char)
  | [] => [[]]
  | c :: cs =>
    match splitNl cs with
    | [] => [[]]
    | r :: rs => if c = '\n' then [] :: r :: rs else (c :: r) :: rs

/-- Rust str::lines: split at newlines, where each line ending may be a
newline or a carriage return followed by a newline, and the final line
ending is optional (a trailing newline yields no final empty line; a final
carriage return not followed by a newline is kept). -/
def rustLines (s : String) : List String :=
  match (splitNl s.data).reverse with
  | [] => []
  | last :: revInit =>
    let init := revInit.reverse.map
      (fun l => if l.getLast? = some '\x0d' then l.dropLast else l)
    let tail := if last = [] then [] else [last]
    (init ++ tail).map (fun l => ⟨l⟩)

/-- Remove leading and trailing whitespace from a character sequence. -/
def trimChars (l : List Char) : List Char :=
  ((l.dropWhile Char.isWhitespace).reverse.dropWhile Char.isWhitespace).reverse

/-- Rust str::trim (whitespace restricted to the ASCII white space
characters, which is all git's porcelain and branch listings produce). -/
def strTrim (s : String) : String := ⟨trimChars s.data⟩

/-- Rust str::starts_with('*'). -/
def strStartsStar (s : String) : Bool :=
  match s.data with
  | c :: _ => c = '*'
  | [] => false

/-- Rust str::trim_start_matches('*'): drop every leading marker. -/
def strDropStars (s : String) : String := ⟨s.data.dropWhile (fun c => c = '*')⟩

/-- The parsing core of get_branch_info (git.rs lines 74-97): trim each line
of the branch listing, take as current the first line starting with the
sentinel marker (stripping all leading markers and trimming), defaulting to
"main" when none is marked, and keep the unmarked lines as the others. -/
def parse_branch_info (stdout : String) : String × List String :=
  let all_branches := (rustLines stdout).map (fun line => strTrim line)
  let current_branch : String :=
    match all_branches.find? (fun b => strStartsStar b) with
    | some b => strTrim (strDropStars b)
    | none => "main"
  let other_branches :=
    (all_branches.filter (fun b => !(strStartsStar b))).map (fun b => strTrim b)
  (current_branch, other_branches)

/-- Embedding of get_branch_info (git.rs lines 65-98): run the branch listing
captured and parse its stdout. Only a spawn failure is an error; the listing's
exit status is not inspected. -/
def get_branch_info (env : GitEnv) (s : RunState) :
    Except CliError (String × List String) × RunState :=
  match git_exec env ["--no-pager", "branch", "--no-color"]
      "failed to get branch list" true s with
  | (.error e, s1) => (.error e, s1)
  | (.ok out, s1) => (.ok (parse_branch_info out.stdout), s1)

/-- Result of an interactive prompt of the inquire crate: a chosen value, the
distinguished cancellation error, or any other prompt error. -/
inductive PromptResult (α : Type) where
  | ok (value : α)
  | operationCanceled
  | err (msg : String)
deriving DecidableEq

/-- Configuration of the delete confirmation prompt (git.rs lines 270-273):
Confirm::new("are you sure?") with default answer false and an irreversibility
warning as help message. Its outcome is the confirm parameter of delete. -/
structure ConfirmPrompt where
  message : String
  default_answer : Bool
  help_message : String
deriving DecidableEq

/-- The confirmation prompt built by delete. -/
def delete_confirm_prompt : ConfirmPrompt :=
  ⟨"are you sure?", false, "this action is irreversible"⟩

/-- Tail of sync after the restoration block (git.rs lines 167-169): print
the completion line and return Ok. -/
def sync_finish (s : RunState) : Except CliError Unit × RunState :=
  (.ok (), rsPrint s (bold "git sync complete ^.^"))

/-- Restoration block of sync (git.rs lines 158-165): when local changes were
stashed, pop the stash, clear the stash list and unstage, each step
propagating a spawn failure; then finish. -/
def sync_restore (env : GitEnv) (s : RunState) (local_changes_stashed : Bool) :
    Except CliError Unit × RunState :=
  if local_changes_stashed then
    let s := rsPrint s (bold "restoring stashed changes")
    match git_exec env ["stash", "pop"] "failed to restore local changes" false s with
    | (.error e, s) => (.error e, s)
    | (.ok _, s) =>
      match git_exec env ["stash", "clear"] "failed to clear stash" false s with
      | (.error e, s) => (.error e, s)
      | (.ok _, s) =>
        let s := rsPrint s (bold "unstaging local changes.")
        match git_exec env ["reset"] "failed to unstage local changes" false s with
        | (.error e, s) => (.error e, s)
        | (.ok _, s) => sync_finish s
  else sync_finish s

/-- Middle of sync (git.rs lines 139-156): fetch with pruning, pull with
rebase, read the latest commit line and print it, then run the restoration
block with the recorded stash flag. -/
def sync_after_stash (env : GitEnv) (s : RunState) (local_changes_stashed : Bool) :
    Except CliError Unit × RunState :=
  let s := rsPrint s (bold "syncing changes with upstream branch")
  match git_exec env ["fetch", "-p"] "failed to fetch remote changes" false s with
  | (.error e, s) => (.error e, s)
  | (.ok _, s) =>
    match git_exec env ["pull", "--rebase"] "failed to pull remote changes" false s with
    | (.error e, s) => (.error e, s)
    | (.ok _, s) =>
      match git_exec env ["log", "-1", "--oneline"] "failed to get latest commit" true s with
      | (.error e, s) => (.error e, s)
      | (.ok git_log_output, s) =>
        let latest_commit := strTrim git_log_output.stdout
        let s := rsPrint s ("- latest commit: " ++ dimmed latest_commit)
        sync_restore env s local_changes_stashed

/-- Embedding of sync (git.rs lines 106-170): check that the directory is a
repository and that an upstream is configured (each failed check is a clean
informational early exit), stash local changes when the porcelain status is
non-empty, then fetch, pull, report the latest commit and restore. -/
def sync (env : GitEnv) : Except CliError Unit × RunState :=
  match git_exec env ["rev-parse", "--git-dir"] "failed to execute git command"
      true RunState.init with
  | (.error e, s) => (.error e, s)
  | (.ok git_check, s) =>
    if !git_check.success then
      (.ok (), rsPrint s "current directory is not a git repository. nothing to sync.")
    else
      match git_exec env ["rev-parse", "--abbrev-ref", "--symbolic-full-name", "@\x7bu\x7d"]
          "failed to get upstream branch" true s with
      | (.error e, s) => (.error e, s)
      | (.ok remote_status, s) =>
        if !remote_status.success then
          (.ok (), rsPrint s "no upstream branch found. nothing to sync")
        else
          let s := rsPrint s (bold "checking local branch status")
          match git_exec env ["status", "--porcelain"] "failed to get git status" true s with
          | (.error e, s) => (.error e, s)
          | (.ok git_status, s) =>
            if git_status.stdout.isEmpty then
              sync_after_stash env s false
            else
              let s := rsPrint s "- local changes found. stashing local changes"
              match git_exec env ["add", "."] "failed to stage local changes" false s with
              | (.error e, s) => (.error e, s)
              | (.ok _, s) =>
                match git_exec env ["stash"] "failed to stash local changes" false s with
                | (.error e, s) => (.error e, s)
                | (.ok _, s) => sync_after_stash env s true

/-- Tail of switch after the checkout (git.rs lines 230-232). -/
def switch_finish (s : RunState) : Except CliError Unit × RunState :=
  (.ok (), rsPrint s (bold "branch switch complete ^.^"))

/-- Restoration block of switch (git.rs lines 221-228), identical in shape to
the one of sync. -/
def switch_restore (env : GitEnv) (s : RunState) (local_changes_stashed : Bool) :
    Except CliError Unit × RunState :=
  if local_changes_stashed then
    let s := rsPrint s (bold "restoring stashed changes")
    match git_exec env ["stash", "pop"] "failed to restore local changes" false s with
    | (.error e, s) => (.error e, s)
    | (.ok _, s) =>
      match git_exec env ["stash", "clear"] "failed to clear stash" false s with
      | (.error e, s) => (.error e, s)
      | (.ok _, s) =>
        let s := rsPrint s (bold "unstaging local changes.")
        match git_exec env ["reset"] "failed to unstage local changes" false s with
        | (.error e, s) => (.error e, s)
        | (.ok _, s) => switch_finish s
  else switch_finish s

/-- Checkout step of switch (git.rs line 219) followed by restoration. -/
def switch_checkout (env : GitEnv) (s : RunState) (new_branch : String)
    (local_changes_stashed : Bool) : Except CliError Unit × RunState :=
  match git_exec env ["checkout", new_branch] "failed to switch branch" false s with
  | (.error e, s) => (.error e, s)
  | (.ok _, s) => switch_restore env s local_changes_stashed

/-- Part of switch after a branch was selected (git.rs lines 209-228): stash
local changes when the porcelain status is non-empty, then check out. -/
def switch_selected (env : GitEnv) (s : RunState) (new_branch : String) :
    Except CliError Unit × RunState :=
  let s := rsPrint s (bold "checking local branch status")
  match git_exec env ["status", "--porcelain"] "failed to get git status" true s with
  | (.error e, s) => (.error e, s)
  | (.ok git_status, s) =>
    if git_status.stdout.isEmpty then
      switch_checkout env s new_branch false
    else
      let s := rsPrint s "- local changes found. stashing local changes"
      match git_exec env ["add", "."] "failed to stage local changes" false s with
      | (.error e, s) => (.error e, s)
      | (.ok _, s) =>
        match git_exec env ["stash"] "failed to stash local changes" false s with
        | (.error e, s) => (.error e, s)
        | (.ok _, s) => switch_checkout env s new_branch true

/-- Embedding of switch (git.rs lines 178-233): list branches, exit cleanly
when no other branch exists, prompt for a branch (cancellation and any other
prompt error abort cleanly with Ok), then stash, check out and restore. -/
def switch (env : GitEnv) (selectResult : PromptResult String) :
    Except CliError Unit × RunState :=
  match get_branch_info env RunState.init with
  | (.error e, s) => (.error e, s)
  | (.ok (current_branch, other_branches), s) =>
    if other_branches.isEmpty then
      (.ok (), rsPrint s ("no other local branches found except for: " ++
        bold current_branch ++ ". nothing to switch."))
    else
      let s := rsPrint s (bold "current branch" ++ ": " ++ current_branch)
      match selectResult with
      | .operationCanceled => (.ok (), rsPrint s (bold "aborting branch switch"))
      | .err e => (.ok (), rsPrint s ("unexpected error: " ++ e ++ ". " ++
          bold "aborting branch switch"))
      | .ok new_branch => switch_selected env s new_branch

/-- Embedding of delete (git.rs lines 241-296): list branches, exit cleanly
when no other branch exists, prompt for a branch (cancellation and any other
prompt error abort cleanly with Ok), then ask for confirmation: only an
explicit yes force-deletes the branch; no, cancellation, or any other prompt
error aborts with Ok and runs nothing. -/
def delete (env : GitEnv) (selectResult : PromptResult String)
    (confirm : PromptResult Bool) : Except CliError Unit × RunState :=
  match get_branch_info env RunState.init with
  | (.error e, s) => (.error e, s)
  | (.ok (current_branch, other_branches), s) =>
    if other_branches.isEmpty then
      (.ok (), rsPrint s ("no other local branches found except for: " ++
        bold current_branch ++ ". nothing to delete."))
    else
      match selectResult with
      | .operationCanceled => (.ok (), rsPrint s (bold "aborting branch delete"))
      | .err e => (.ok (), rsPrint s ("unexpected error: " ++ e ++ ". " ++
          bold "aborting branch delete"))
      | .ok branch_to_delete =>
        match confirm with
        | .ok true =>
          match git_exec env ["branch", "-D", branch_to_delete]
              "failed to delete branch" false s with
          | (.error e, s) => (.error e, s)
          | (.ok _, s) => (.ok (), rsPrint s (bold "branch delete complete ^.^"))
        | .ok false => (.ok (), rsPrint s (bold "aborting branch delete"))
        | .operationCanceled => (.ok (), rsPrint s (bold "aborting branch delete"))
        | .err e => (.ok (), rsPrint s ("unexpected error: " ++ e ++ ". " ++
            bold "aborting branch delete"))

/-- Classification of an attempted git invocation as mutating repository
state (index, stash list, refs, working tree) or read-only. -/
def GitCall.is_mutating (c : GitCall) : Bool :=
  match c.args with
  | "add" :: _ => true
  | "stash" :: _ => true
  | "fetch" :: _ => true
  | "pull" :: _ => true
  | "checkout" :: _ => true
  | "reset" :: _ => true
  | "branch" :: "-D" :: _ => true
  | _ => false

/-- The branch-listing invocation. -/
def listCall : GitCall := ⟨["--no-pager", "branch", "--no-color"], true⟩

/-- The porcelain status invocation. -/
def statusCall : GitCall := ⟨["status", "--porcelain"], true⟩

/-- The stage-all invocation. -/
def addCall : GitCall := ⟨["add", "."], false⟩

/-- The stash invocation. -/
def stashCall : GitCall := ⟨["stash"], false⟩

/-- The fetch invocation. -/
def fetchCall : GitCall := ⟨["fetch", "-p"], false⟩

/-- The pull-with-rebase invocation. -/
def pullCall : GitCall := ⟨["pull", "--rebase"], false⟩

/-- The latest-commit log invocation. -/
def logCall : GitCall := ⟨["log", "-1", "--oneline"], true⟩

/-- The stash-pop invocation. -/
def popCall : GitCall := ⟨["stash", "pop"], false⟩

/-- The stash-clear invocation. -/
def clearCall : GitCall := ⟨["stash", "clear"], false⟩

/-- The unstage invocation. -/
def resetCall : GitCall := ⟨["reset"], false⟩

/-- The checkout invocation for a target branch. -/
def checkoutCall (b : String) : GitCall := ⟨["checkout", b], false⟩

/-- The force-delete invocation for a target branch. -/
def deleteCall (b : String) : GitCall := ⟨["branch", "-D", b], false⟩

/-- The repository-check invocation of sync. -/
def checkRepoCall : GitCall := ⟨["rev-parse", "--git-dir"], true⟩

/-- The upstream-check invocation of sync. -/
def upstreamCall : GitCall :=
  ⟨["rev-parse", "--abbrev-ref", "--symbolic-full-name", "@\x7bu\x7d"], true⟩

/-- The git invocations of a full sync run without local changes. -/
def sync_calls_nostash : List GitCall :=
  [checkRepoCall, upstreamCall, statusCall, fetchCall, pullCall, logCall]

/-- The git invocations of a full sync run that stashed local changes. -/
def sync_calls_stash : List GitCall :=
  [checkRepoCall, upstreamCall, statusCall, addCall, stashCall, fetchCall,
   pullCall, logCall, popCall, clearCall, resetCall]

/-- The lines printed by a full sync run without local changes, given the
trimmed latest-commit line. -/
def sync_prints_nostash (c : String) : List String :=
  [bold "checking local branch status", bold "syncing changes with upstream branch",
   "- latest commit: " ++ dimmed c, bold "git sync complete ^.^"]

/-- The lines printed by a full sync run that stashed local changes, given
the trimmed latest-commit line. -/
def sync_prints_stash (c : String) : List String :=
  [bold "checking local branch status", "- local changes found. stashing local changes",
   bold "syncing changes with upstream branch", "- latest commit: " ++ dimmed c,
   bold "restoring stashed changes", bold "unstaging local changes.",
   bold "git sync complete ^.^"]

/-- The git invocations of a full switch run without local changes. -/
def switch_calls_nostash (br : String) : List GitCall :=
  [listCall, statusCall, checkoutCall br]

/-- The git invocations of a full switch run that stashed local changes. -/
def switch_calls_stash (br : String) : List GitCall :=
  [listCall, statusCall, addCall, stashCall, checkoutCall br, popCall,
   clearCall, resetCall]

/-- The lines printed by a full switch run without local changes, given the
current branch name. -/
def switch_prints_nostash (cur : String) : List String :=
  [bold "current branch" ++ ": " ++ cur, bold "checking local branch status",
   bold "branch switch complete ^.^"]

/-- The lines printed by a full switch run that stashed local changes, given
the current branch name. -/
def switch_prints_stash (cur : String) : List String :=
  [bold "current branch" ++ ": " ++ cur, bold "checking local branch status",
   "- local changes found. stashing local changes", bold "restoring stashed changes",
   bold "unstaging local changes.", bold "branch switch complete ^.^"]

/-- An environment in which every spawn launches, every command exits
successfully, and every output is empty. -/
def envAllLaunch : GitEnv := fun _ => .launched true "" ""

/-- A sync environment with local changes present (non-empty porcelain
status) and everything else succeeding. -/
def env_sync_stash : GitEnv := fun i =>
  match i with
  | 2 => .launched true "M f" ""
  | _ => .launched true "" ""

/-- A sync environment with local changes present in which the fetch step
fails to launch. -/
def env_sync_fetch_gone : GitEnv := fun i =>
  match i with
  | 2 => .launched true " M x" ""
  | 5 => .noLaunch "spawn failed"
  | _ => .launched true "" ""

/-- A sync environment with a clean working tree in which the fetch command
launches but exits with a failure status. -/
def env_sync_fetch_fails : GitEnv := fun i =>
  match i with
  | 3 => .launched false "" ""
  | _ => .launched true "" ""

/-- An environment in which no spawn ever launches. -/
def env_git_gone : GitEnv := fun _ => .noLaunch "boom"

/-- An environment whose branch listing shows a current branch main and one
other branch dev, with local changes present at the status step. -/
def env_two_branches : GitEnv := fun i =>
  match i with
  | 0 => .launched true "* main\n  dev\n" ""
  | 1 => .launched true "M f" ""
  | _ => .launched true "" ""

/-- An environment whose branch listing shows only the current branch. -/
def env_one_branch : GitEnv := fun _ => .launched true "* main\n" ""

/-- An environment whose branch listing carries no current-branch marker. -/
def env_no_marker : GitEnv := fun _ => .launched true "  foo\n  bar" ""

/-- A spawn result that launched is a launched constructor. -/
theorem spawn_exists_of_launches {r : SpawnResult} (h : r.launches = true) :
    ∃ b o e, r = .launched b o e := by
  cases r with
  | launched b o e => exact ⟨b, o, e, rfl⟩
  | noLaunch m => simp [SpawnResult.launches] at h

/-- When the branch listing launches, get_branch_info returns the parse of
its stdout and records exactly the listing invocation. -/
theorem get_branch_info_launched {env : GitEnv} {b : Bool} {o e : String}
    (h0 : env 0 = .launched b o e) :
    get_branch_info env RunState.init =
      (.ok (parse_branch_info o), ⟨1, [listCall], []⟩) := by
  simp [get_branch_info, git_exec, RunState.init, listCall, h0]

/-- Full run of sync with a clean working tree: both checks succeed, the
porcelain status is empty, and fetch, pull and log all launch. -/
theorem sync_run_nostash {env : GitEnv} {o0 e0 o1 e1 o2 e2 : String}
    {b2 b3 b4 b5 : Bool} {o3 e3 o4 e4 o5 e5 : String}
    (h0 : env 0 = .launched true o0 e0)
    (h1 : env 1 = .launched true o1 e1)
    (h2 : env 2 = .launched b2 o2 e2)
    (ho2 : o2.isEmpty = true)
    (h3 : env 3 = .launched b3 o3 e3)
    (h4 : env 4 = .launched b4 o4 e4)
    (h5 : env 5 = .launched b5 o5 e5) :
    sync env = (.ok (), ⟨6, sync_calls_nostash, sync_prints_nostash (strTrim o5)⟩) := by
  simp [sync, sync_after_stash, sync_restore, sync_finish, git_exec, rsPrint,
    RunState.init, h0, h1, h2, ho2, h3, h4, h5, sync_calls_nostash,
    sync_prints_nostash, checkRepoCall, upstreamCall, statusCall, fetchCall,
    pullCall, logCall]

/-- Full run of sync with local changes: both checks succeed, the porcelain
status is non-empty, and every later command launches, whatever its exit
status. -/
theorem sync_run_stash {env : GitEnv} {o0 e0 o1 e1 o2 e2 : String}
    {b2 b3 b4 b5 b6 b7 b8 b9 b10 : Bool}
    {o3 e3 o4 e4 o5 e5 o6 e6 o7 e7 o8 e8 o9 e9 o10 e10 : String}
    (h0 : env 0 = .launched true o0 e0)
    (h1 : env 1 = .launched true o1 e1)
    (h2 : env 2 = .launched b2 o2 e2)
    (ho2 : o2.isEmpty = false)
    (h3 : env 3 = .launched b3 o3 e3)
    (h4 : env 4 = .launched b4 o4 e4)
    (h5 : env 5 = .launched b5 o5 e5)
    (h6 : env 6 = .launched b6 o6 e6)
    (h7 : env 7 = .launched b7 o7 e7)
    (h8 : env 8 = .launched b8 o8 e8)
    (h9 : env 9 = .launched b9 o9 e9)
    (h10 : env 10 = .launched b10 o10 e10) :
    sync env = (.ok (), ⟨11, sync_calls_stash, sync_prints_stash (strTrim o7)⟩) := by
  simp [sync, sync_after_stash, sync_restore, sync_finish, git_exec, rsPrint,
    RunState.init, h0, h1, h2, ho2, h3, h4, h5, h6, h7, h8, h9, h10,
    sync_calls_stash, sync_prints_stash, checkRepoCall, upstreamCall,
    statusCall, addCall, stashCall, fetchCall, pullCall, logCall, popCall,
    clearCall, resetCall]

/-- Full run of switch with a clean working tree after a selection. -/
theorem switch_run_nostash {env : GitEnv} {b0 : Bool} {o0 e0 : String}
    {br : String} {b1 b2 : Bool} {o1 e1 o2 e2 : String}
    (h0 : env 0 = .launched b0 o0 e0)
    (hne : (parse_branch_info o0).2 ≠ [])
    (h1 : env 1 = .launched b1 o1 e1)
    (ho1 : o1.isEmpty = true)
    (h2 : env 2 = .launched b2 o2 e2) :
    switch env (.ok br) =
      (.ok (), ⟨3, switch_calls_nostash br,
        switch_prints_nostash (parse_branch_info o0).1⟩) := by
  rcases hp : parse_branch_info o0 with ⟨cur, others⟩
  rw [hp] at hne
  simp [switch, get_branch_info_launched h0, hp, switch_selected, switch_checkout,
    switch_restore, switch_finish, git_exec, rsPrint, hne, h1, ho1, h2,
    switch_calls_nostash, switch_prints_nostash, listCall, statusCall, checkoutCall]

/-- Full run of switch with local changes after a selection: the status is
non-empty and every later command launches, whatever its exit status. -/
theorem switch_run_stash {env : GitEnv} {b0 : Bool} {o0 e0 : String}
    {br : String} {b1 b2 b3 b4 b5 b6 b7 : Bool}
    {o1 e1 o2 e2 o3 e3 o4 e4 o5 e5 o6 e6 o7 e7 : String}
    (h0 : env 0 = .launched b0 o0 e0)
    (hne : (parse_branch_info o0).2 ≠ [])
    (h1 : env 1 = .launched b1 o1 e1)
    (ho1 : o1.isEmpty = false)
    (h2 : env 2 = .launched b2 o2 e2)
    (h3 : env 3 = .launched b3 o3 e3)
    (h4 : env 4 = .launched b4 o4 e4)
    (h5 : env 5 = .launched b5 o5 e5)
    (h6 : env 6 = .launched b6 o6 e6)
    (h7 : env 7 = .launched b7 o7 e7) :
    switch env (.ok br) =
      (.ok (), ⟨8, switch_calls_stash br,
        switch_prints_stash (parse_branch_info o0).1⟩) := by
  rcases hp : parse_branch_info o0 with ⟨cur, others⟩
  rw [hp] at hne
  simp [switch, get_branch_info_launched h0, hp, switch_selected, switch_checkout,
    switch_restore, switch_finish, git_exec, rsPrint, hne, h1, ho1, h2, h3, h4,
    h5, h6, h7, switch_calls_stash, switch_prints_stash, listCall, statusCall,
    addCall, stashCall, checkoutCall, popCall, clearCall, resetCall]

/-- C9: when the wrapped git process launches, git_exec with capture set to
false returns an outcome with empty stdout and stderr that still carries the
child's exit status, and with capture set to true it returns the child's
buffered streams. -/
theorem claim_C9 (env : GitEnv) (s : RunState) (args : List String)
    (error_msg : String) (b : Bool) (o e : String)
    (h : env s.idx = .launched b o e) :
    (git_exec env args error_msg false s).1 = .ok ⟨b, "", ""⟩ ∧
    (git_exec env args error_msg true s).1 = .ok ⟨b, o, e⟩ := by
  constructor <;> simp [git_exec, h]

/-- Witness for C9 at a concrete environment. -/
theorem claim_C9_witness :
    (git_exec envAllLaunch ["fetch", "-p"] "m" false RunState.init).1 =
      .ok ⟨true, "", ""⟩ ∧
    (git_exec envAllLaunch ["fetch", "-p"] "m" true RunState.init).1 =
      .ok ⟨true, "", ""⟩ :=
  claim_C9 envAllLaunch RunState.init ["fetch", "-p"] "m" true "" "" rfl

/-- C8: when no line of the branch listing carries the current-branch marker
after trimming (in particular when the listing is empty), get_branch_info
reports "main" as the current branch. -/
theorem claim_C8 (env : GitEnv) (b : Bool) (stdout e : String)
    (h0 : env 0 = .launched b stdout e)
    (hm : ∀ l ∈ rustLines stdout, strStartsStar (strTrim l) = false) :
    (get_branch_info env RunState.init).1 =
      .ok ("main", (parse_branch_info stdout).2) := by
  have hfind : ((rustLines stdout).map (fun line => strTrim line)).find?
      (fun b2 => strStartsStar b2) = none := by
    rw [List.find?_eq_none]
    intro x hx
    simp only [List.mem_map] at hx
    obtain ⟨l, hl, rfl⟩ := hx
    simp [hm l hl]
  have hcur : (parse_branch_info stdout).1 = "main" := by
    simp [parse_branch_info, hfind]
  rw [get_branch_info_launched h0]
  show Except.ok (parse_branch_info stdout) = _
  rw [← hcur]

/-- Witness for C8 at a marker-free two-line listing. -/
theorem claim_C8_witness :
    (get_branch_info env_no_marker RunState.init).1 =
      .ok ("main", (parse_branch_info "  foo\n  bar").2) :=
  claim_C8 env_no_marker true "  foo\n  bar" "" rfl (by decide)

/-- C6: when the branch listing yields no branch besides the current one,
switch and delete report a nothing-to-do message, return Ok and attempt no
mutating git command. -/
theorem claim_C6 :
    (∀ (env : GitEnv) (sel : PromptResult String) (b : Bool) (o e : String),
      env 0 = .launched b o e → (parse_branch_info o).2 = [] →
      (switch env sel).1 = .ok () ∧
      (∀ c ∈ (switch env sel).2.calls, c.is_mutating = false) ∧
      ("no other local branches found except for: " ++ bold (parse_branch_info o).1 ++
        ". nothing to switch.") ∈ (switch env sel).2.prints) ∧
    (∀ (env : GitEnv) (sel : PromptResult String) (confirm : PromptResult Bool)
      (b : Bool) (o e : String),
      env 0 = .launched b o e → (parse_branch_info o).2 = [] →
      (delete env sel confirm).1 = .ok () ∧
      (∀ c ∈ (delete env sel confirm).2.calls, c.is_mutating = false) ∧
      ("no other local branches found except for: " ++ bold (parse_branch_info o).1 ++
        ". nothing to delete.") ∈ (delete env sel confirm).2.prints) := by
  constructor
  · intro env sel b o e h0 hemp
    rcases hp : parse_branch_info o with ⟨cur, others⟩
    rw [hp] at hemp
    subst hemp
    have hs : switch env sel = (.ok (), ⟨1, [listCall],
        ["no other local branches found except for: " ++ bold cur ++
          ". nothing to switch."]⟩) := by
      simp [switch, get_branch_info_launched h0, hp, rsPrint]
    rw [hs]
    refine ⟨rfl, ?_, by simp⟩
    intro c hc
    simp only [List.mem_singleton] at hc
    subst hc
    decide
  · intro env sel confirm b o e h0 hemp
    rcases hp : parse_branch_info o with ⟨cur, others⟩
    rw [hp] at hemp
    subst hemp
    have hs : delete env sel confirm = (.ok (), ⟨1, [listCall],
        ["no other local branches found except for: " ++ bold cur ++
          ". nothing to delete."]⟩) := by
      simp [delete, get_branch_info_launched h0, hp, rsPrint]
    rw [hs]
    refine ⟨rfl, ?_, by simp⟩
    intro c hc
    simp only [List.mem_singleton] at hc
    subst hc
    decide

/-- Witness for C6 at a single-branch listing. -/
theorem claim_C6_witness :
    (switch env_one_branch (.ok "dev")).1 = .ok () ∧
    (delete env_one_branch (.ok "dev") (.ok true)).1 = .ok () :=
  ⟨(claim_C6.1 env_one_branch (.ok "dev") true "* main\n" "" rfl (by decide)).1,
   (claim_C6.2 env_one_branch (.ok "dev") (.ok true) true "* main\n" "" rfl (by decide)).1⟩

/-- C5: cancelling the branch-selection prompt in switch or delete returns
Ok with an informational abort message and attempts no mutating git command,
leaving the repository untouched. -/
theorem claim_C5 :
    (∀ (env : GitEnv) (b : Bool) (o e : String),
      env 0 = .launched b o e → (parse_branch_info o).2 ≠ [] →
      (switch env .operationCanceled).1 = .ok () ∧
      (∀ c ∈ (switch env .operationCanceled).2.calls, c.is_mutating = false) ∧
      bold "aborting branch switch" ∈ (switch env .operationCanceled).2.prints) ∧
    (∀ (env : GitEnv) (confirm : PromptResult Bool) (b : Bool) (o e : String),
      env 0 = .launched b o e → (parse_branch_info o).2 ≠ [] →
      (delete env .operationCanceled confirm).1 = .ok () ∧
      (∀ c ∈ (delete env .operationCanceled confirm).2.calls, c.is_mutating = false) ∧
      bold "aborting branch delete" ∈ (delete env .operationCanceled confirm).2.prints) := by
  constructor
  · intro env b o e h0 hne
    rcases hp : parse_branch_info o with ⟨cur, others⟩
    rw [hp] at hne
    obtain ⟨x, xs, rfl⟩ : ∃ x xs, others = x :: xs := by
      cases others with
      | nil => exact absurd rfl hne
      | cons x xs => exact ⟨x, xs, rfl⟩
    have hs : switch env .operationCanceled = (.ok (), ⟨1, [listCall],
        [bold "current branch" ++ ": " ++ cur, bold "aborting branch switch"]⟩) := by
      simp [switch, get_branch_info_launched h0, hp, rsPrint]
    rw [hs]
    refine ⟨rfl, ?_, by simp⟩
    intro c hc
    simp only [List.mem_singleton] at hc
    subst hc
    decide
  · intro env confirm b o e h0 hne
    rcases hp : parse_branch_info o with ⟨cur, others⟩
    rw [hp] at hne
    obtain ⟨x, xs, rfl⟩ : ∃ x xs, others = x :: xs := by
      cases others with
      | nil => exact absurd rfl hne
      | cons x xs => exact ⟨x, xs, rfl⟩
    have hs : delete env .operationCanceled confirm = (.ok (), ⟨1, [listCall],
        [bold "aborting branch delete"]⟩) := by
      simp [delete, get_branch_info_launched h0, hp, rsPrint]
    rw [hs]
    refine ⟨rfl, ?_, by simp⟩
    intro c hc
    simp only [List.mem_singleton] at hc
    subst hc
    decide

/-- Witness for C5 at a two-branch listing. -/
theorem claim_C5_witness :
    (switch env_two_branches .operationCanceled).1 = .ok () ∧
    (delete env_two_branches .operationCanceled (.ok true)).1 = .ok () :=
  ⟨(claim_C5.1 env_two_branches true "* main\n  dev\n" "" rfl (by decide)).1,
   (claim_C5.2 env_two_branches (.ok true) true "* main\n  dev\n" "" rfl (by decide)).1⟩

/-- C7: a branch-selection or confirmation prompt failure other than
cancellation makes switch and delete print the unexpected error together
with the abort message, return Ok, and attempt no mutating git command. -/
theorem claim_C7 :
    (∀ (env : GitEnv) (m : String) (b : Bool) (o e : String),
      env 0 = .launched b o e → (parse_branch_info o).2 ≠ [] →
      (switch env (.err m)).1 = .ok () ∧
      (∀ c ∈ (switch env (.err m)).2.calls, c.is_mutating = false) ∧
      ("unexpected error: " ++ m ++ ". " ++ bold "aborting branch switch") ∈
        (switch env (.err m)).2.prints) ∧
    (∀ (env : GitEnv) (m : String) (confirm : PromptResult Bool) (b : Bool) (o e : String),
      env 0 = .launched b o e → (parse_branch_info o).2 ≠ [] →
      (delete env (.err m) confirm).1 = .ok () ∧
      (∀ c ∈ (delete env (.err m) confirm).2.calls, c.is_mutating = false) ∧
      ("unexpected error: " ++ m ++ ". " ++ bold "aborting branch delete") ∈
        (delete env (.err m) confirm).2.prints) ∧
    (∀ (env : GitEnv) (br m : String) (b : Bool) (o e : String),
      env 0 = .launched b o e → (parse_branch_info o).2 ≠ [] →
      (delete env (.ok br) (.err m)).1 = .ok () ∧
      (∀ c ∈ (delete env (.ok br) (.err m)).2.calls, c.is_mutating = false) ∧
      ("unexpected error: " ++ m ++ ". " ++ bold "aborting branch delete") ∈
        (delete env (.ok br) (.err m)).2.prints) := by
  refine ⟨?_, ?_, ?_⟩
  · intro env m b o e h0 hne
    rcases hp : parse_branch_info o with ⟨cur, others⟩
    rw [hp] at hne
    obtain ⟨x, xs, rfl⟩ : ∃ x xs, others = x :: xs := by
      cases others with
      | nil => exact absurd rfl hne
      | cons x xs => exact ⟨x, xs, rfl⟩
    have hs : switch env (.err m) = (.ok (), ⟨1, [listCall],
        [bold "current branch" ++ ": " ++ cur,
         "unexpected error: " ++ m ++ ". " ++ bold "aborting branch switch"]⟩) := by
      simp [switch, get_branch_info_launched h0, hp, rsPrint]
    rw [hs]
    refine ⟨rfl, ?_, by simp⟩
    intro c hc
    simp only [List.mem_singleton] at hc
    subst hc
    decide
  · intro env m confirm b o e h0 hne
    rcases hp : parse_branch_info o with ⟨cur, others⟩
    rw [hp] at hne
    obtain ⟨x, xs, rfl⟩ : ∃ x xs, others = x :: xs := by
      cases others with
      | nil => exact absurd rfl hne
      | cons x xs => exact ⟨x, xs, rfl⟩
    have hs : delete env (.err m) confirm = (.ok (), ⟨1, [listCall],
        ["unexpected error: " ++ m ++ ". " ++ bold "aborting branch delete"]⟩) := by
      simp [delete, get_branch_info_launched h0, hp, rsPrint]
    rw [hs]
    refine ⟨rfl, ?_, by simp⟩
    intro c hc
    simp only [List.mem_singleton] at hc
    subst hc
    decide
  · intro env br m b o e h0 hne
    rcases hp : parse_branch_info o with ⟨cur, others⟩
    rw [hp] at hne
    obtain ⟨x, xs, rfl⟩ : ∃ x xs, others = x :: xs := by
      cases others with
      | nil => exact absurd rfl hne
      | cons x xs => exact ⟨x, xs, rfl⟩
    have hs : delete env (.ok br) (.err m) = (.ok (), ⟨1, [listCall],
        ["unexpected error: " ++ m ++ ". " ++ bold "aborting branch delete"]⟩) := by
      simp [delete, get_branch_info_launched h0, hp, rsPrint]
    rw [hs]
    refine ⟨rfl, ?_, by simp⟩
    intro c hc
    simp only [List.mem_singleton] at hc
    subst hc
    decide

/-- Witness for C7 at a two-branch listing. -/
theorem claim_C7_witness :
    (switch env_two_branches (.err "oops")).1 = .ok () ∧
    (delete env_two_branches (.err "oops") (.ok true)).1 = .ok () ∧
    (delete env_two_branches (.ok "dev") (.err "oops")).1 = .ok () :=
  ⟨(claim_C7.1 env_two_branches "oops" true "* main\n  dev\n" "" rfl (by decide)).1,
   (claim_C7.2.1 env_two_branches "oops" (.ok true) true "* main\n  dev\n" "" rfl (by decide)).1,
   (claim_C7.2.2 env_two_branches "dev" "oops" true "* main\n  dev\n" "" rfl (by decide)).1⟩

/-- C4: in delete, the force-delete command on the selected branch is
attempted if and only if the confirmation prompt returns an explicit yes;
every non-affirmative confirmation outcome (no, cancellation, or any other
prompt failure) returns Ok with no mutating command attempted; and the
confirmation prompt's default answer is refusal. -/
theorem claim_C4 (env : GitEnv) (confirm : PromptResult Bool) (b : Bool)
    (o e br : String)
    (h0 : env 0 = .launched b o e)
    (hne : (parse_branch_info o).2 ≠ []) :
    delete_confirm_prompt.default_answer = false ∧
    (deleteCall br ∈ (delete env (.ok br) confirm).2.calls ↔ confirm = .ok true) ∧
    (confirm ≠ .ok true →
      (delete env (.ok br) confirm).1 = .ok () ∧
      ∀ c ∈ (delete env (.ok br) confirm).2.calls, c.is_mutating = false) := by
  rcases hp : parse_branch_info o with ⟨cur, others⟩
  rw [hp] at hne
  obtain ⟨x, xs, rfl⟩ : ∃ x xs, others = x :: xs := by
    cases others with
    | nil => exact absurd rfl hne
    | cons x xs => exact ⟨x, xs, rfl⟩
  refine ⟨rfl, ?_⟩
  match confirm with
  | .ok true =>
    refine ⟨?_, fun hb => absurd rfl hb⟩
    have hs : (delete env (.ok br) (.ok true)).2.calls = [listCall, deleteCall br] := by
      rcases h1 : env 1 with ⟨b1, o1, e1⟩ | m1 <;>
        simp [delete, get_branch_info_launched h0, hp, git_exec, rsPrint, h1, deleteCall]
    rw [hs]
    exact ⟨fun _ => rfl, fun _ => by simp⟩
  | .ok false =>
    have hs : delete env (.ok br) (.ok false) = (.ok (), ⟨1, [listCall],
        [bold "aborting branch delete"]⟩) := by
      simp [delete, get_branch_info_launched h0, hp, rsPrint]
    rw [hs]
    refine ⟨⟨fun h => ?_, fun h => by simp at h⟩, fun _ => ⟨rfl, ?_⟩⟩
    · simp only [List.mem_singleton] at h
      simp [deleteCall, listCall] at h
    · intro c hc
      simp only [List.mem_singleton] at hc
      subst hc
      decide
  | .operationCanceled =>
    have hs : delete env (.ok br) .operationCanceled = (.ok (), ⟨1, [listCall],
        [bold "aborting branch delete"]⟩) := by
      simp [delete, get_branch_info_launched h0, hp, rsPrint]
    rw [hs]
    refine ⟨⟨fun h => ?_, fun h => by simp at h⟩, fun _ => ⟨rfl, ?_⟩⟩
    · simp only [List.mem_singleton] at h
      simp [deleteCall, listCall] at h
    · intro c hc
      simp only [List.mem_singleton] at hc
      subst hc
      decide
  | .err m =>
    have hs : delete env (.ok br) (.err m) = (.ok (), ⟨1, [listCall],
        ["unexpected error: " ++ m ++ ". " ++ bold "aborting branch delete"]⟩) := by
      simp [delete, get_branch_info_launched h0, hp, rsPrint]
    rw [hs]
    refine ⟨⟨fun h => ?_, fun h => by simp at h⟩, fun _ => ⟨rfl, ?_⟩⟩
    · simp only [List.mem_singleton] at h
      simp [deleteCall, listCall] at h
    · intro c hc
      simp only [List.mem_singleton] at hc
      subst hc
      decide

/-- Witness for C4: with an affirmative confirmation the force-delete is
attempted; with a negative one the run ends Ok without it. -/
theorem claim_C4_witness :
    deleteCall "dev" ∈ (delete env_two_branches (.ok "dev") (.ok true)).2.calls ∧
    (delete env_two_branches (.ok "dev") (.ok false)).1 = .ok () :=
  ⟨(claim_C4 env_two_branches (.ok true) true "* main\n  dev\n" "" "dev" rfl
      (by decide)).2.1.mpr rfl,
   ((claim_C4 env_two_branches (.ok false) true "* main\n  dev\n" "" "dev" rfl
      (by decide)).2.2 (by simp)).1⟩

/-- C1 (amended): in a sync or switch run that set the stash flag, whenever
every subsequent git command launches (whatever its exit status), the
restoration sequence stash pop, stash clear, reset is attempted before the
workflow exits; a launch failure of an intervening command instead
propagates immediately without restoration. -/
theorem claim_C1 :
    (∀ env : GitEnv, all_launch env → (env 0).succ = true → (env 1).succ = true →
      (env 2).out.isEmpty = false →
      popCall ∈ (sync env).2.calls ∧ clearCall ∈ (sync env).2.calls ∧
        resetCall ∈ (sync env).2.calls) ∧
    (∀ (env : GitEnv) (br : String), all_launch env →
      (parse_branch_info (env 0).out).2 ≠ [] → (env 1).out.isEmpty = false →
      popCall ∈ (switch env (.ok br)).2.calls ∧
        clearCall ∈ (switch env (.ok br)).2.calls ∧
        resetCall ∈ (switch env (.ok br)).2.calls) := by
  constructor
  · intro env hall h0s h1s h2o
    obtain ⟨b0, o0, e0, h0⟩ := spawn_exists_of_launches (hall 0)
    obtain ⟨b1, o1, e1, h1⟩ := spawn_exists_of_launches (hall 1)
    obtain ⟨b2, o2, e2, h2⟩ := spawn_exists_of_launches (hall 2)
    obtain ⟨b3, o3, e3, h3⟩ := spawn_exists_of_launches (hall 3)
    obtain ⟨b4, o4, e4, h4⟩ := spawn_exists_of_launches (hall 4)
    obtain ⟨b5, o5, e5, h5⟩ := spawn_exists_of_launches (hall 5)
    obtain ⟨b6, o6, e6, h6⟩ := spawn_exists_of_launches (hall 6)
    obtain ⟨b7, o7, e7, h7⟩ := spawn_exists_of_launches (hall 7)
    obtain ⟨b8, o8, e8, h8⟩ := spawn_exists_of_launches (hall 8)
    obtain ⟨b9, o9, e9, h9⟩ := spawn_exists_of_launches (hall 9)
    obtain ⟨b10, o10, e10, h10⟩ := spawn_exists_of_launches (hall 10)
    rw [h0] at h0s
    rw [h1] at h1s
    rw [h2] at h2o
    simp only [SpawnResult.succ] at h0s h1s
    simp only [SpawnResult.out] at h2o
    subst h0s
    subst h1s
    rw [sync_run_stash h0 h1 h2 h2o h3 h4 h5 h6 h7 h8 h9 h10]
    refine ⟨?_, ?_, ?_⟩ <;>
    · show _ ∈ sync_calls_stash
      decide
  · intro env br hall hne h1o
    obtain ⟨b0, o0, e0, h0⟩ := spawn_exists_of_launches (hall 0)
    obtain ⟨b1, o1, e1, h1⟩ := spawn_exists_of_launches (hall 1)
    obtain ⟨b2, o2, e2, h2⟩ := spawn_exists_of_launches (hall 2)
    obtain ⟨b3, o3, e3, h3⟩ := spawn_exists_of_launches (hall 3)
    obtain ⟨b4, o4, e4, h4⟩ := spawn_exists_of_launches (hall 4)
    obtain ⟨b5, o5, e5, h5⟩ := spawn_exists_of_launches (hall 5)
    obtain ⟨b6, o6, e6, h6⟩ := spawn_exists_of_launches (hall 6)
    obtain ⟨b7, o7, e7, h7⟩ := spawn_exists_of_launches (hall 7)
    rw [h0] at hne
    rw [h1] at h1o
    simp only [SpawnResult.out] at hne h1o
    rw [switch_run_stash h0 hne h1 h1o h2 h3 h4 h5 h6 h7]
    refine ⟨?_, ?_, ?_⟩ <;> simp [switch_calls_stash, popCall, clearCall, resetCall,
      listCall, statusCall, addCall, stashCall, checkoutCall]

/-- Witness for C1 at concrete environments with local changes present. -/
theorem claim_C1_witness :
    popCall ∈ (sync env_sync_stash).2.calls ∧
    popCall ∈ (switch env_two_branches (.ok "dev")).2.calls := by
  constructor
  · exact (claim_C1.1 env_sync_stash
      (by intro i; rcases i with _ | _ | _ | i <;> rfl) rfl rfl rfl).1
  · exact (claim_C1.2 env_two_branches "dev"
      (by intro i; rcases i with _ | _ | i <;> rfl) (by decide) rfl).1

/-- C1 as stated is false on the launch-failure exit path: in this sync run
local changes are stashed, then the fetch step fails to launch; the workflow
exits with that error and never attempts stash pop, stash clear or reset. -/
theorem claim_C1_counterexample :
    stashCall ∈ (sync env_sync_fetch_gone).2.calls ∧
    popCall ∉ (sync env_sync_fetch_gone).2.calls ∧
    clearCall ∉ (sync env_sync_fetch_gone).2.calls ∧
    resetCall ∉ (sync env_sync_fetch_gone).2.calls ∧
    (sync env_sync_fetch_gone).1 =
      .error (.Command "failed to fetch remote changes: spawn failed") := by
  decide

/-- C3 (amended): in a sync run that stashed local changes (with every
command launching), the latest-commit report is read and displayed strictly
before the restoration commands: the log invocation precedes the stash pop
in the trace, and the latest-commit line is printed. -/
theorem claim_C3 (env : GitEnv) (hall : all_launch env)
    (h0s : (env 0).succ = true) (h1s : (env 1).succ = true)
    (h2o : (env 2).out.isEmpty = false) :
    logCall ∈ (sync env).2.calls ∧ popCall ∈ (sync env).2.calls ∧
    (sync env).2.calls.indexOf logCall < (sync env).2.calls.indexOf popCall ∧
    ("- latest commit: " ++ dimmed (strTrim (env 7).out)) ∈ (sync env).2.prints := by
  obtain ⟨b0, o0, e0, h0⟩ := spawn_exists_of_launches (hall 0)
  obtain ⟨b1, o1, e1, h1⟩ := spawn_exists_of_launches (hall 1)
  obtain ⟨b2, o2, e2, h2⟩ := spawn_exists_of_launches (hall 2)
  obtain ⟨b3, o3, e3, h3⟩ := spawn_exists_of_launches (hall 3)
  obtain ⟨b4, o4, e4, h4⟩ := spawn_exists_of_launches (hall 4)
  obtain ⟨b5, o5, e5, h5⟩ := spawn_exists_of_launches (hall 5)
  obtain ⟨b6, o6, e6, h6⟩ := spawn_exists_of_launches (hall 6)
  obtain ⟨b7, o7, e7, h7⟩ := spawn_exists_of_launches (hall 7)
  obtain ⟨b8, o8, e8, h8⟩ := spawn_exists_of_launches (hall 8)
  obtain ⟨b9, o9, e9, h9⟩ := spawn_exists_of_launches (hall 9)
  obtain ⟨b10, o10, e10, h10⟩ := spawn_exists_of_launches (hall 10)
  rw [h0] at h0s
  rw [h1] at h1s
  rw [h2] at h2o
  simp only [SpawnResult.succ] at h0s h1s
  simp only [SpawnResult.out] at h2o
  subst h0s
  subst h1s
  rw [sync_run_stash h0 h1 h2 h2o h3 h4 h5 h6 h7 h8 h9 h10, h7]
  simp only [SpawnResult.out]
  refine ⟨?_, ?_, ?_, ?_⟩
  · show _ ∈ sync_calls_stash
    decide
  · show _ ∈ sync_calls_stash
    decide
  · show sync_calls_stash.indexOf logCall < sync_calls_stash.indexOf popCall
    decide
  · simp [sync_prints_stash]

/-- Witness for C3 at a concrete environment with local changes present. -/
theorem claim_C3_witness :
    logCall ∈ (sync env_sync_stash).2.calls ∧
    (sync env_sync_stash).2.calls.indexOf logCall <
      (sync env_sync_stash).2.calls.indexOf popCall := by
  have h := claim_C3 env_sync_stash
    (by intro i; rcases i with _ | _ | _ | i <;> rfl) rfl rfl rfl
  exact ⟨h.1, h.2.2.1⟩

/-- C3 as stated is false: in this sync run with stashed local changes, the
latest-commit report (the log invocation) strictly precedes the stash pop in
the trace, so the restoration is not executed before the report. -/
theorem claim_C3_counterexample :
    stashCall ∈ (sync env_sync_stash).2.calls ∧
    logCall ∈ (sync env_sync_stash).2.calls ∧
    popCall ∈ (sync env_sync_stash).2.calls ∧
    ¬ (sync env_sync_stash).2.calls.indexOf popCall <
        (sync env_sync_stash).2.calls.indexOf logCall := by
  decide

/-- C10: git_exec returns Ok exactly when the git process launches,
regardless of the command's exit status, and CliError::Command only when it
cannot be spawned; consequently sync (past its two checks) and switch (past
its selection) run to their success message under any exit statuses of the
non-captured mutating commands. -/
theorem claim_C10 :
    (∀ (env : GitEnv) (args : List String) (error_msg : String)
      (cap : Bool) (s : RunState),
      ((∃ out, (git_exec env args error_msg cap s).1 = .ok out) ↔
        (env s.idx).launches = true) ∧
      ((∃ m, env s.idx = .noLaunch m ∧
          (git_exec env args error_msg cap s).1 =
            .error (.Command (error_msg ++ ": " ++ m))) ↔
        (env s.idx).launches = false)) ∧
    (∀ env : GitEnv, all_launch env → (env 0).succ = true → (env 1).succ = true →
      (sync env).1 = .ok () ∧
      bold "git sync complete ^.^" ∈ (sync env).2.prints) ∧
    (∀ (env : GitEnv) (br : String), all_launch env →
      (parse_branch_info (env 0).out).2 ≠ [] →
      (switch env (.ok br)).1 = .ok () ∧
      bold "branch switch complete ^.^" ∈ (switch env (.ok br)).2.prints) := by
  refine ⟨?_, ?_, ?_⟩
  · intro env args error_msg cap s
    rcases h : env s.idx with ⟨b, o, e⟩ | m <;>
      cases cap <;>
      simp [git_exec, h, SpawnResult.launches]
  · intro env hall h0s h1s
    obtain ⟨b0, o0, e0, h0⟩ := spawn_exists_of_launches (hall 0)
    obtain ⟨b1, o1, e1, h1⟩ := spawn_exists_of_launches (hall 1)
    obtain ⟨b2, o2, e2, h2⟩ := spawn_exists_of_launches (hall 2)
    obtain ⟨b3, o3, e3, h3⟩ := spawn_exists_of_launches (hall 3)
    obtain ⟨b4, o4, e4, h4⟩ := spawn_exists_of_launches (hall 4)
    obtain ⟨b5, o5, e5, h5⟩ := spawn_exists_of_launches (hall 5)
    obtain ⟨b6, o6, e6, h6⟩ := spawn_exists_of_launches (hall 6)
    obtain ⟨b7, o7, e7, h7⟩ := spawn_exists_of_launches (hall 7)
    obtain ⟨b8, o8, e8, h8⟩ := spawn_exists_of_launches (hall 8)
    obtain ⟨b9, o9, e9, h9⟩ := spawn_exists_of_launches (hall 9)
    obtain ⟨b10, o10, e10, h10⟩ := spawn_exists_of_launches (hall 10)
    rw [h0] at h0s
    rw [h1] at h1s
    simp only [SpawnResult.succ] at h0s h1s
    subst h0s
    subst h1s
    rcases ho2 : o2.isEmpty with _ | _
    · rw [sync_run_stash h0 h1 h2 ho2 h3 h4 h5 h6 h7 h8 h9 h10]
      exact ⟨rfl, by simp [sync_prints_stash]⟩
    · rw [sync_run_nostash h0 h1 h2 ho2 h3 h4 h5]
      exact ⟨rfl, by simp [sync_prints_nostash]⟩
  · intro env br hall hne
    obtain ⟨b0, o0, e0, h0⟩ := spawn_exists_of_launches (hall 0)
    obtain ⟨b1, o1, e1, h1⟩ := spawn_exists_of_launches (hall 1)
    obtain ⟨b2, o2, e2, h2⟩ := spawn_exists_of_launches (hall 2)
    obtain ⟨b3, o3, e3, h3⟩ := spawn_exists_of_launches (hall 3)
    obtain ⟨b4, o4, e4, h4⟩ := spawn_exists_of_launches (hall 4)
    obtain ⟨b5, o5, e5, h5⟩ := spawn_exists_of_launches (hall 5)
    obtain ⟨b6, o6, e6, h6⟩ := spawn_exists_of_launches (hall 6)
    obtain ⟨b7, o7, e7, h7⟩ := spawn_exists_of_launches (hall 7)
    rw [h0] at hne
    simp only [SpawnResult.out] at hne
    rcases ho1 : o1.isEmpty with _ | _
    · rw [switch_run_stash h0 hne h1 ho1 h2 h3 h4 h5 h6 h7]
      exact ⟨rfl, by simp [switch_prints_stash]⟩
    · rw [switch_run_nostash h0 hne h1 ho1 h2]
      exact ⟨rfl, by simp [switch_prints_nostash]⟩

/-- Witness for C10: a run in which fetch exits with a failure status still
ends in Ok with the success message, and git_exec at concrete inputs. -/
theorem claim_C10_witness :
    (∃ out, (git_exec envAllLaunch ["stash"] "m" false RunState.init).1 = .ok out) ∧
    (sync env_sync_fetch_fails).1 = .ok () ∧
    (switch env_two_branches (.ok "dev")).1 = .ok () := by
  refine ⟨?_, ?_, ?_⟩
  · exact (claim_C10.1 envAllLaunch ["stash"] "m" false RunState.init).1.mpr rfl
  · exact ((claim_C10.2.1 env_sync_fetch_fails
      (by intro i; rcases i with _ | _ | _ | _ | i <;> rfl) rfl rfl)).1
  · exact ((claim_C10.2.2 env_two_branches "dev"
      (by intro i; rcases i with _ | _ | i <;> rfl) (by decide))).1

/-- C2 as stated is false: in this sync run the fetch command completes with
a failure exit status, yet the workflow does not abort at that step: it
continues, returns Ok and prints the completion message. -/
theorem claim_C2_counterexample :
    (env_sync_fetch_fails 3).succ = false ∧
    fetchCall ∈ (sync env_sync_fetch_fails).2.calls ∧
    (sync env_sync_fetch_fails).1 = .ok () ∧
    bold "git sync complete ^.^" ∈ (sync env_sync_fetch_fails).2.prints ∧
    pullCall ∈ (sync env_sync_fetch_fails).2.calls := by
  decide

/-- A sync run that ended in an error whose last attempted spawn failed to
launch satisfies the abort-characterization conjunction. -/
theorem sync_c2_err {env : GitEnv} {em m : String} {k : Nat} {cs : List GitCall}
    {ps : List String}
    (hs : sync env = (.error (.Command (em ++ ": " ++ m)), ⟨k, cs, ps⟩))
    (hk : env (k - 1) = .noLaunch m) (hnd : cs.Nodup) :
    (sync env).2.calls.Nodup ∧
    (∀ er s, sync env = (.error er, s) →
      ∃ em2 m2, env (s.idx - 1) = .noLaunch m2 ∧ er = .Command (em2 ++ ": " ++ m2)) ∧
    (all_launch env → (sync env).1 = .ok ()) := by
  refine ⟨by rw [hs]; exact hnd, ?_, ?_⟩
  · intro er s h
    rw [hs] at h
    injection h with h1 h2
    injection h1 with h11
    subst h2
    exact ⟨em, m, hk, h11.symm⟩
  · intro hall
    have hl := hall (k - 1)
    rw [hk] at hl
    simp [SpawnResult.launches] at hl

/-- A sync run that ended in Ok satisfies the abort-characterization
conjunction. -/
theorem sync_c2_ok {env : GitEnv} {cs : List GitCall} {ps : List String} {k : Nat}
    (hs : sync env = (.ok (), ⟨k, cs, ps⟩)) (hnd : cs.Nodup) :
    (sync env).2.calls.Nodup ∧
    (∀ er s, sync env = (.error er, s) →
      ∃ em2 m2, env (s.idx - 1) = .noLaunch m2 ∧ er = .Command (em2 ++ ": " ++ m2)) ∧
    (all_launch env → (sync env).1 = .ok ()) := by
  refine ⟨by rw [hs]; exact hnd, ?_, fun _ => by rw [hs]⟩
  intro er s h
  rw [hs] at h
  injection h with h1 h2
  exact Except.noConfusion h1

/-- C2 (amended): sync aborts with a surfaced error exactly at a step whose
git command fails to launch: any error result is a CliError::Command built
from the launch-failure cause of the last attempted command; no command is
attempted twice (no retry); and when every command launches, sync ends Ok
whatever the exit statuses, so a failure exit status of a launched command
never aborts the workflow. -/
theorem claim_C2 (env : GitEnv) :
    (sync env).2.calls.Nodup ∧
    (∀ er s, sync env = (.error er, s) →
      ∃ em m, env (s.idx - 1) = .noLaunch m ∧ er = .Command (em ++ ": " ++ m)) ∧
    (all_launch env → (sync env).1 = .ok ()) := by
  rcases h0 : env 0 with ⟨b0, o0, e0⟩ | m0
  · cases b0
    · have hs : sync env = (.ok (), ⟨1, [checkRepoCall],
          ["current directory is not a git repository. nothing to sync."]⟩) := by
        simp [sync, git_exec, rsPrint, RunState.init, h0, checkRepoCall]
      exact sync_c2_ok hs (by decide)
    · rcases h1 : env 1 with ⟨b1, o1, e1⟩ | m1
      · cases b1
        · have hs : sync env = (.ok (), ⟨2, [checkRepoCall, upstreamCall],
              ["no upstream branch found. nothing to sync"]⟩) := by
            simp [sync, git_exec, rsPrint, RunState.init, h0, h1,
              checkRepoCall, upstreamCall]
          exact sync_c2_ok hs (by decide)
        · rcases h2 : env 2 with ⟨b2, o2, e2⟩ | m2
          · rcases ho2 : o2.isEmpty with _ | _
            · -- non-empty status: the stash spine
              rcases h3 : env 3 with ⟨b3, o3, e3⟩ | m3
              · rcases h4 : env 4 with ⟨b4, o4, e4⟩ | m4
                · rcases h5 : env 5 with ⟨b5, o5, e5⟩ | m5
                  · rcases h6 : env 6 with ⟨b6, o6, e6⟩ | m6
                    · rcases h7 : env 7 with ⟨b7, o7, e7⟩ | m7
                      · rcases h8 : env 8 with ⟨b8, o8, e8⟩ | m8
                        · rcases h9 : env 9 with ⟨b9, o9, e9⟩ | m9
                          · rcases h10 : env 10 with ⟨b10, o10, e10⟩ | m10
                            · exact sync_c2_ok
                                (sync_run_stash h0 h1 h2 ho2 h3 h4 h5 h6 h7 h8 h9 h10)
                                (by decide)
                            · have hs : sync env =
                                  (.error (.Command ("failed to unstage local changes" ++ ": " ++ m10)),
                                   ⟨11, [checkRepoCall, upstreamCall, statusCall, addCall,
                                     stashCall, fetchCall, pullCall, logCall, popCall,
                                     clearCall, resetCall],
                                   ["checking local branch status",
                                    "- local changes found. stashing local changes",
                                    "syncing changes with upstream branch",
                                    "- latest commit: " ++ strTrim o7,
                                    "restoring stashed changes",
                                    "unstaging local changes."]⟩) := by
                                simp [sync, sync_after_stash, sync_restore, git_exec,
                                  rsPrint, RunState.init, bold, dimmed, h0, h1, h2, ho2,
                                  h3, h4, h5, h6, h7, h8, h9, h10, checkRepoCall,
                                  upstreamCall, statusCall, addCall, stashCall, fetchCall,
                                  pullCall, logCall, popCall, clearCall, resetCall]
                              exact sync_c2_err hs h10 (by decide)
                          · have hs : sync env =
                                (.error (.Command ("failed to clear stash" ++ ": " ++ m9)),
                                 ⟨10, [checkRepoCall, upstreamCall, statusCall, addCall,
                                   stashCall, fetchCall, pullCall, logCall, popCall,
                                   clearCall],
                                 ["checking local branch status",
                                  "- local changes found. stashing local changes",
                                  "syncing changes with upstream branch",
                                  "- latest commit: " ++ strTrim o7,
                                  "restoring stashed changes"]⟩) := by
                              simp [sync, sync_after_stash, sync_restore, git_exec,
                                rsPrint, RunState.init, bold, dimmed, h0, h1, h2, ho2,
                                h3, h4, h5, h6, h7, h8, h9, checkRepoCall, upstreamCall,
                                statusCall, addCall, stashCall, fetchCall, pullCall,
                                logCall, popCall, clearCall]
                            exact sync_c2_err hs h9 (by decide)
                        · have hs : sync env =
                              (.error (.Command ("failed to restore local changes" ++ ": " ++ m8)),
                               ⟨9, [checkRepoCall, upstreamCall, statusCall, addCall,
                                 stashCall, fetchCall, pullCall, logCall, popCall],
                               ["checking local branch status",
                                "- local changes found. stashing local changes",
                                "syncing changes with upstream branch",
                                "- latest commit: " ++ strTrim o7,
                                "restoring stashed changes"]⟩) := by
                            simp [sync, sync_after_stash, sync_restore, git_exec,
                              rsPrint, RunState.init, bold, dimmed, h0, h1, h2, ho2,
                              h3, h4, h5, h6, h7, h8, checkRepoCall, upstreamCall,
                              statusCall, addCall, stashCall, fetchCall, pullCall,
                              logCall, popCall]
                          exact sync_c2_err hs h8 (by decide)
                      · have hs : sync env =
                            (.error (.Command ("failed to get latest commit" ++ ": " ++ m7)),
                             ⟨8, [checkRepoCall, upstreamCall, statusCall, addCall,
                               stashCall, fetchCall, pullCall, logCall],
                             ["checking local branch status",
                              "- local changes found. stashing local changes",
                              "syncing changes with upstream branch"]⟩) := by
                          simp [sync, sync_after_stash, git_exec, rsPrint,
                            RunState.init, bold, h0, h1, h2, ho2, h3, h4, h5, h6, h7,
                            checkRepoCall, upstreamCall, statusCall, addCall,
                            stashCall, fetchCall, pullCall, logCall]
                        exact sync_c2_err hs h7 (by decide)
                    · have hs : sync env =
                          (.error (.Command ("failed to pull remote changes" ++ ": " ++ m6)),
                           ⟨7, [checkRepoCall, upstreamCall, statusCall, addCall,
                             stashCall, fetchCall, pullCall],
                           ["checking local branch status",
                            "- local changes found. stashing local changes",
                            "syncing changes with upstream branch"]⟩) := by
                        simp [sync, sync_after_stash, git_exec, rsPrint,
                          RunState.init, bold, h0, h1, h2, ho2, h3, h4, h5, h6,
                          checkRepoCall, upstreamCall, statusCall, addCall,
                          stashCall, fetchCall, pullCall]
                      exact sync_c2_err hs h6 (by decide)
                  · have hs : sync env =
                        (.error (.Command ("failed to fetch remote changes" ++ ": " ++ m5)),
                         ⟨6, [checkRepoCall, upstreamCall, statusCall, addCall,
                           stashCall, fetchCall],
                         ["checking local branch status",
                          "- local changes found. stashing local changes",
                          "syncing changes with upstream branch"]⟩) := by
                      simp [sync, sync_after_stash, git_exec, rsPrint, RunState.init,
                        bold, h0, h1, h2, ho2, h3, h4, h5, checkRepoCall,
                        upstreamCall, statusCall, addCall, stashCall, fetchCall]
                    exact sync_c2_err hs h5 (by decide)
                · have hs : sync env =
                      (.error (.Command ("failed to stash local changes" ++ ": " ++ m4)),
                       ⟨5, [checkRepoCall, upstreamCall, statusCall, addCall, stashCall],
                       ["checking local branch status",
                        "- local changes found. stashing local changes"]⟩) := by
                    simp [sync, git_exec, rsPrint, RunState.init, bold, h0, h1, h2,
                      ho2, h3, h4, checkRepoCall, upstreamCall, statusCall, addCall,
                      stashCall]
                  exact sync_c2_err hs h4 (by decide)
              · have hs : sync env =
                    (.error (.Command ("failed to stage local changes" ++ ": " ++ m3)),
                     ⟨4, [checkRepoCall, upstreamCall, statusCall, addCall],
                     ["checking local branch status",
                      "- local changes found. stashing local changes"]⟩) := by
                  simp [sync, git_exec, rsPrint, RunState.init, bold, h0, h1, h2,
                    ho2, h3, checkRepoCall, upstreamCall, statusCall, addCall]
                exact sync_c2_err hs h3 (by decide)
            · -- empty status: the plain spine
              rcases h3 : env 3 with ⟨b3, o3, e3⟩ | m3
              · rcases h4 : env 4 with ⟨b4, o4, e4⟩ | m4
                · rcases h5 : env 5 with ⟨b5, o5, e5⟩ | m5
                  · exact sync_c2_ok (sync_run_nostash h0 h1 h2 ho2 h3 h4 h5) (by decide)
                  · have hs : sync env =
                        (.error (.Command ("failed to get latest commit" ++ ": " ++ m5)),
                         ⟨6, [checkRepoCall, upstreamCall, statusCall, fetchCall,
                           pullCall, logCall],
                         ["checking local branch status",
                          "syncing changes with upstream branch"]⟩) := by
                      simp [sync, sync_after_stash, git_exec, rsPrint, RunState.init,
                        bold, h0, h1, h2, ho2, h3, h4, h5, checkRepoCall,
                        upstreamCall, statusCall, fetchCall, pullCall, logCall]
                    exact sync_c2_err hs h5 (by decide)
                · have hs : sync env =
                      (.error (.Command ("failed to pull remote changes" ++ ": " ++ m4)),
                       ⟨5, [checkRepoCall, upstreamCall, statusCall, fetchCall, pullCall],
                       ["checking local branch status",
                        "syncing changes with upstream branch"]⟩) := by
                    simp [sync, sync_after_stash, git_exec, rsPrint, RunState.init,
                      bold, h0, h1, h2, ho2, h3, h4, checkRepoCall, upstreamCall,
                      statusCall, fetchCall, pullCall]
                  exact sync_c2_err hs h4 (by decide)
              · have hs : sync env =
                    (.error (.Command ("failed to fetch remote changes" ++ ": " ++ m3)),
                     ⟨4, [checkRepoCall, upstreamCall, statusCall, fetchCall],
                     ["checking local branch status",
                      "syncing changes with upstream branch"]⟩) := by
                  simp [sync, sync_after_stash, git_exec, rsPrint, RunState.init,
                    bold, h0, h1, h2, ho2, h3, checkRepoCall, upstreamCall,
                    statusCall, fetchCall]
                exact sync_c2_err hs h3 (by decide)
          · have hs : sync env =
                (.error (.Command ("failed to get git status" ++ ": " ++ m2)),
                 ⟨3, [checkRepoCall, upstreamCall, statusCall],
                 ["checking local branch status"]⟩) := by
              simp [sync, git_exec, rsPrint, RunState.init, bold, h0, h1, h2,
                checkRepoCall, upstreamCall, statusCall]
            exact sync_c2_err hs h2 (by decide)
      · have hs : sync env =
            (.error (.Command ("failed to get upstream branch" ++ ": " ++ m1)),
             ⟨2, [checkRepoCall, upstreamCall], []⟩) := by
          simp [sync, git_exec, RunState.init, h0, h1, checkRepoCall, upstreamCall]
        exact sync_c2_err hs h1 (by decide)
  · have hs : sync env =
        (.error (.Command ("failed to execute git command" ++ ": " ++ m0)),
         ⟨1, [checkRepoCall], []⟩) := by
      simp [sync, git_exec, RunState.init, h0, checkRepoCall]
    exact sync_c2_err hs h0 (by decide)

/-- Witness for C2: a run whose first spawn cannot launch surfaces that
cause in its error, and an all-launching run ends Ok. -/
theorem claim_C2_witness :
    (sync env_git_gone).2.calls.Nodup ∧
    (∃ em m, env_git_gone 0 = .noLaunch m ∧
      CliError.Command "failed to execute git command: boom" =
        .Command (em ++ ": " ++ m)) ∧
    (sync envAllLaunch).1 = .ok () := by
  refine ⟨(claim_C2 env_git_gone).1, ?_, (claim_C2 envAllLaunch).2.2 (fun i => rfl)⟩
  have h := (claim_C2 env_git_gone).2.1
    (.Command "failed to execute git command: boom") ⟨1, [checkRepoCall], []⟩ (by decide)
  simpa using h
